import Mathlib

/-!
# circle/sample/42-i2sinput/kernel.cpp

A shallow embedding of the I2S passthrough sample: the `WRITE_FORMAT`
preprocessor chain, the constructor's member initialisers, and `CKernel::Run`
(bootstrap of the two sound devices followed by the endless copy loop).

The sound devices, the logger and the screen are collaborators whose code is
not part of the sample.  The two sound devices are taken as parameters (an
interface over an arbitrary device state); every call the kernel makes on a
collaborator is appended, with its arguments and its return value, to a
record of calls kept in the kernel state.
-/

namespace I2SInput

/-! ## Types of the collaborators -/

/-- The sound formats named by the `FORMAT` definitions of the sample. -/
inductive TSoundFormat where
  | SoundFormatUnsigned8
  | SoundFormatSigned16
  | SoundFormatSigned24
  | SoundFormatSigned24_32
  deriving DecidableEq, Repr

/-- The sample types named by the `TYPE` definitions of the sample. -/
inductive CType where
  | u8
  | s16
  | s32
  deriving DecidableEq, Repr

/-- Modelled from the spec: the typedefs `u8`, `s16`, `s32` come from
`circle/types.h`, which is not under src/; they are the fixed-width integer
types of 8, 16 and 32 bits, so `sizeof` is 1, 2 and 4 (spec section 3:
byte widths 1, 2, 3, 4). -/
def sizeof : CType → Nat
  | .u8 => 1
  | .s16 => 2
  | .s32 => 4

/-- Severities of the diagnostic sink used by the sample. -/
inductive TLogSeverity where
  | LogPanic
  | LogError
  | LogWarning
  | LogNotice
  | LogDebug
  deriving DecidableEq, Repr

/-- The device modes of `CI2SSoundBaseDevice`. -/
inductive TDeviceMode where
  | DeviceModeTXOnly
  | DeviceModeRXOnly
  | DeviceModeTXRX
  deriving DecidableEq, Repr

/-- Contents of a `u8` array. -/
abbrev Buffer := List (Fin 256)

/-! ## Build configuration (`config.h`, not part of the sample source) -/

/-- The values `config.h` defines, taken as parameters, together with the
compile time stamp the first log message carries and the width in bits of
`size_t` on the target (32 for an AArch32 build, 64 for an AArch64 build).
`WRITE_FORMAT` is `none` when nothing defines it as an integer constant. -/
structure Config where
  SAMPLE_RATE : Nat
  CHUNK_SIZE : Nat
  WRITE_FORMAT : Option Int
  WRITE_CHANNELS : Nat
  QUEUE_SIZE_MSECS : Nat
  compileTime : String
  SIZE_BITS : Nat
  deriving DecidableEq, Repr

/-! ## The `WRITE_FORMAT` chain (kernel.cpp lines 25-49) -/

/-- The five names one branch of the `#if` chain defines. -/
structure FormatDefs where
  FORMAT : TSoundFormat
  TYPE : CType
  TYPE_SIZE : Nat
  FACTOR : Int
  NULL_LEVEL : Int
  deriving DecidableEq, Repr

/-- The value `WRITE_FORMAT` has inside an `#if`.  A name that is not defined
as an integer constant counts as 0.  The preprocessor computes in the 64-bit
types `intmax_t` and `uintmax_t`: a constant is taken modulo `2 ^ 64`, so that
comparing it with one of 0..3 compares this residue. -/
def preprocessorValue : Option Int → Int
  | none => 0
  | some v => v % 2 ^ 64

/-- The `#if WRITE_FORMAT == 0 ... #elif ... #endif` chain: the definitions in
force after it.  There is no `#else`: when no branch is taken nothing is
defined, and the translation unit, which uses `FORMAT` and `TYPE_SIZE`, does
not compile. -/
def selectFormat (WRITE_FORMAT : Option Int) : Option FormatDefs :=
  if preprocessorValue WRITE_FORMAT == 0 then
    some { FORMAT := .SoundFormatUnsigned8
           TYPE := .u8
           TYPE_SIZE := sizeof .u8
           FACTOR := (1 <<< 7) - 1
           NULL_LEVEL := 1 <<< 7 }
  else if preprocessorValue WRITE_FORMAT == 1 then
    some { FORMAT := .SoundFormatSigned16
           TYPE := .s16
           TYPE_SIZE := sizeof .s16
           FACTOR := (1 <<< 15) - 1
           NULL_LEVEL := 0 }
  else if preprocessorValue WRITE_FORMAT == 2 then
    some { FORMAT := .SoundFormatSigned24
           TYPE := .s32
           TYPE_SIZE := sizeof .u8 * 3
           FACTOR := (1 <<< 23) - 1
           NULL_LEVEL := 0 }
  else if preprocessorValue WRITE_FORMAT == 3 then
    some { FORMAT := .SoundFormatSigned24_32
           TYPE := .s32
           TYPE_SIZE := sizeof .s32
           FACTOR := (1 <<< 23) - 1
           NULL_LEVEL := 0 }
  else
    none

/-! ## Constructor (kernel.cpp lines 53-62) -/

/-- The values `m_Options` hands to the constructor. -/
structure CKernelOptions where
  Width : Nat
  Height : Nat
  LogLevel : Nat
  deriving DecidableEq, Repr

/-- The arguments of one `CI2SSoundBaseDevice` constructor call after the
interrupt system; an argument the call leaves to its default is `none`. -/
structure SoundDeviceArgs where
  nSampleRate : Nat
  nChunkSize : Nat
  bSlave : Option Bool
  pI2CMaster : Option Nat
  ucI2CAddress : Option Nat
  DeviceMode : Option TDeviceMode
  deriving DecidableEq, Repr

/-- What the member initialiser list and the body of `CKernel::CKernel` pass
to the members. -/
structure CKernelInit where
  m_Screen : Nat × Nat
  m_Logger : Nat
  m_SoundIn : SoundDeviceArgs
  m_SoundOut : SoundDeviceArgs
  m_ActLED_Blink : Nat
  deriving DecidableEq, Repr

/-- The constructor `CKernel::CKernel`. -/
def CKernel_CKernel (cfg : Config) (m_Options : CKernelOptions) : CKernelInit :=
  { m_Screen := (m_Options.Width, m_Options.Height)
    m_Logger := m_Options.LogLevel
    m_SoundIn :=
      { nSampleRate := cfg.SAMPLE_RATE
        nChunkSize := cfg.CHUNK_SIZE
        bSlave := some true
        pI2CMaster := some 0
        ucI2CAddress := some 0
        DeviceMode := some .DeviceModeRXOnly }
    m_SoundOut :=
      { nSampleRate := cfg.SAMPLE_RATE
        nChunkSize := cfg.CHUNK_SIZE
        bSlave := none
        pI2CMaster := none
        ucI2CAddress := none
        DeviceMode := none }
    m_ActLED_Blink := 5 }

/-! ## Kernel state and calls on the collaborators -/

/-- One call made by `CKernel::Run` on a member object, with its arguments
and, where the callee returns something, what it returned.  For `Read` the
last field is the content of the array after the call. -/
inductive Call where
  | Logger_Write (pSource : String) (Severity : TLogSeverity) (pMessage : String)
  | SoundIn_AllocateReadQueue (nSizeMsecs : Nat) (ret : Bool)
  | SoundIn_SetReadFormat (Format : TSoundFormat) (nChannels : Nat)
  | SoundOut_AllocateQueue (nSizeMsecs : Nat) (ret : Bool)
  | SoundOut_SetWriteFormat (Format : TSoundFormat) (nChannels : Nat)
  | SoundIn_Start (ret : Bool)
  | SoundOut_Start (ret : Bool)
  | SoundIn_Read (nCount : Nat) (ret : Int) (filled : Buffer)
  | SoundOut_Write (pBuffer : Buffer) (nCount : Nat) (ret : Int)
  | Screen_Rotor (nPos : Nat) (nCount : Nat)
  deriving DecidableEq, Repr

/-- The interface of a sound device as the sample uses it: each method takes
the state of the device and returns its result and the state afterwards.
`Read` returns the byte count and the content of the caller's array after the
call (the array is uninitialised before it). -/
structure CI2SSoundBaseDevice (σ : Type) where
  AllocateQueue : Nat → σ → Bool × σ
  AllocateReadQueue : Nat → σ → Bool × σ
  SetWriteFormat : TSoundFormat → Nat → σ → σ
  SetReadFormat : TSoundFormat → Nat → σ → σ
  Start : σ → Bool × σ
  Read : Nat → σ → (Int × Buffer) × σ
  Write : Buffer → Nat → σ → Int × σ

/-- The part of the kernel object `Run` works on: the two sound devices, and
the calls made so far on the members, oldest first. -/
structure CKernel (σI σO : Type) where
  m_SoundIn : σI
  m_SoundOut : σO
  calls : List Call

/-- Result of running part of the kernel: either control comes back with a
value, or the process was halted inside a call and nothing after it runs. -/
inductive Exec (σI σO α : Type) where
  | returned (a : α) (k : CKernel σI σO)
  | halted (k : CKernel σI σO)

/-- Statements of the kernel: state in, `Exec` out. -/
def M (σI σO α : Type) : Type := CKernel σI σO → Exec σI σO α

/-- Sequencing: a halted process runs nothing further. -/
def M.bind {σI σO α β : Type} (x : M σI σO α) (f : α → M σI σO β) : M σI σO β :=
  fun k =>
    match x k with
    | .returned a k1 => f a k1
    | .halted k1 => .halted k1

instance {σI σO : Type} : Monad (M σI σO) where
  pure a := fun k => .returned a k
  bind := M.bind

/-- The kernel state an `Exec` ends in. -/
def Exec.state {σI σO α : Type} : Exec σI σO α → CKernel σI σO
  | .returned _ k => k
  | .halted k => k

/-- Whether the process was halted. -/
def Exec.isHalted {σI σO α : Type} : Exec σI σO α → Bool
  | .returned _ _ => false
  | .halted _ => true

/-- Append one call to the record. -/
def CKernel.record {σI σO : Type} (k : CKernel σI σO) (c : Call) : CKernel σI σO :=
  { k with calls := k.calls ++ [c] }

/-- Modelled from the spec: `CLogger::Write` is not under src/.  Spec section
6: the diagnostic sink exposes `write(tag, severity, message)`, and a `Panic`
diagnostic is fatal and halts the process; any other severity returns. -/
def m_Logger_Write {σI σO : Type} (pSource : String) (Severity : TLogSeverity)
    (pMessage : String) : M σI σO Unit :=
  fun k =>
    let k1 := k.record (.Logger_Write pSource Severity pMessage)
    if Severity = .LogPanic then .halted k1 else .returned () k1

/-- The call `m_Screen.Rotor (nPos, nCount)`. -/
def m_Screen_Rotor {σI σO : Type} (nPos nCount : Nat) : M σI σO Unit :=
  fun k => .returned () (k.record (.Screen_Rotor nPos nCount))

section Devices

variable {σI σO : Type} (In : CI2SSoundBaseDevice σI) (Out : CI2SSoundBaseDevice σO)

/-- The call `m_SoundIn.AllocateReadQueue (nSizeMsecs)`. -/
def m_SoundIn_AllocateReadQueue (nSizeMsecs : Nat) : M σI σO Bool :=
  fun k =>
    let r := In.AllocateReadQueue nSizeMsecs k.m_SoundIn
    .returned r.1 ({ k with m_SoundIn := r.2 }.record (.SoundIn_AllocateReadQueue nSizeMsecs r.1))

/-- The call `m_SoundIn.SetReadFormat (Format, nChannels)`. -/
def m_SoundIn_SetReadFormat (Format : TSoundFormat) (nChannels : Nat) : M σI σO Unit :=
  fun k =>
    .returned () ({ k with m_SoundIn := In.SetReadFormat Format nChannels k.m_SoundIn }.record
      (.SoundIn_SetReadFormat Format nChannels))

/-- The call `m_SoundOut.AllocateQueue (nSizeMsecs)`. -/
def m_SoundOut_AllocateQueue (nSizeMsecs : Nat) : M σI σO Bool :=
  fun k =>
    let r := Out.AllocateQueue nSizeMsecs k.m_SoundOut
    .returned r.1 ({ k with m_SoundOut := r.2 }.record (.SoundOut_AllocateQueue nSizeMsecs r.1))

/-- The call `m_SoundOut.SetWriteFormat (Format, nChannels)`. -/
def m_SoundOut_SetWriteFormat (Format : TSoundFormat) (nChannels : Nat) : M σI σO Unit :=
  fun k =>
    .returned () ({ k with m_SoundOut := Out.SetWriteFormat Format nChannels k.m_SoundOut }.record
      (.SoundOut_SetWriteFormat Format nChannels))

/-- The call `m_SoundIn.Start ()`. -/
def m_SoundIn_Start : M σI σO Bool :=
  fun k =>
    let r := In.Start k.m_SoundIn
    .returned r.1 ({ k with m_SoundIn := r.2 }.record (.SoundIn_Start r.1))

/-- The call `m_SoundOut.Start ()`. -/
def m_SoundOut_Start : M σI σO Bool :=
  fun k =>
    let r := Out.Start k.m_SoundOut
    .returned r.1 ({ k with m_SoundOut := r.2 }.record (.SoundOut_Start r.1))

/-- The call `m_SoundIn.Read (Buffer, nCount)`: returns the byte count and the
content of `Buffer` after the call. -/
def m_SoundIn_Read (nCount : Nat) : M σI σO (Int × Buffer) :=
  fun k =>
    let r := In.Read nCount k.m_SoundIn
    .returned r.1 ({ k with m_SoundIn := r.2 }.record (.SoundIn_Read nCount r.1.1 r.1.2))

/-- The call `m_SoundOut.Write (pBuffer, nCount)`. -/
def m_SoundOut_Write (pBuffer : Buffer) (nCount : Nat) : M σI σO Int :=
  fun k =>
    let r := Out.Write pBuffer nCount k.m_SoundOut
    .returned r.1 ({ k with m_SoundOut := r.2 }.record (.SoundOut_Write pBuffer nCount r.1))

/-! ## `CKernel::Run` (kernel.cpp lines 106-154) -/

/-- The tag of every diagnostic of the sample. -/
def FromKernel : String := "kernel"

/-- The value of `sizeof Buffer` for `u8 Buffer[TYPE_SIZE*WRITE_CHANNELS*1000]`.
`TYPE_SIZE` is a `sizeof` expression, so the extent is computed in `size_t` and
wraps modulo `2 ^ SIZE_BITS` (`WRITE_CHANNELS` being a constant that converts
to `size_t`). -/
def sizeofBuffer (cfg : Config) (d : FormatDefs) : Nat :=
  (d.TYPE_SIZE * cfg.WRITE_CHANNELS * 1000) % 2 ^ cfg.SIZE_BITS

/-- Lines 108-134 of `Run`: the first log line, then configuring and starting
the two sound devices. -/
def Run_bootstrap (cfg : Config) (d : FormatDefs) : M σI σO Unit := do
  m_Logger_Write FromKernel .LogNotice ("Compile time: " ++ cfg.compileTime)
  if !(← m_SoundIn_AllocateReadQueue In cfg.QUEUE_SIZE_MSECS) then
    m_Logger_Write FromKernel .LogPanic "Cannot allocate input sound queue"
  m_SoundIn_SetReadFormat In d.FORMAT cfg.WRITE_CHANNELS
  if !(← m_SoundOut_AllocateQueue Out cfg.QUEUE_SIZE_MSECS) then
    m_Logger_Write FromKernel .LogPanic "Cannot allocate output sound queue"
  m_SoundOut_SetWriteFormat Out d.FORMAT cfg.WRITE_CHANNELS
  if !(← m_SoundIn_Start In) then
    m_Logger_Write FromKernel .LogPanic "Cannot start input sound device"
  if !(← m_SoundOut_Start Out) then
    m_Logger_Write FromKernel .LogPanic "Cannot start output sound device"

/-- Lines 139-150 of `Run`: the body of the copy loop, for the value `nCount`
of the loop counter. -/
def Run_copyBody (cfg : Config) (d : FormatDefs) (nCount : Nat) : M σI σO Unit := do
  let (nBytes, Buffer) ← m_SoundIn_Read In (sizeofBuffer cfg d)
  if nBytes > 0 then
    let nResult ← m_SoundOut_Write Out Buffer nBytes.toNat
    if nResult != nBytes then
      m_Logger_Write FromKernel .LogWarning "Sound data dropped"
  m_Screen_Rotor 0 nCount

/-- The loop `for (unsigned nCount = ...; 1; nCount++)` of line 137, cut after
`iterations` runs of its body; the counter is a 32-bit `unsigned`. -/
def Run_copyLoop (cfg : Config) (d : FormatDefs) : (iterations : Nat) → (nCount : Nat) → M σI σO Unit
  | 0, _ => pure ()
  | n + 1, nCount => do
    Run_copyBody In Out cfg d nCount
    Run_copyLoop cfg d n ((nCount + 1) % 2 ^ 32)

/-- The function `CKernel::Run` up to the end of the first `iterations` runs of
the loop body.  The loop has no exit, so `return ShutdownHalt` is never
reached. -/
def Run (cfg : Config) (d : FormatDefs) (iterations : Nat) : M σI σO Unit := do
  Run_bootstrap In Out cfg d
  Run_copyLoop In Out cfg d iterations 0

end Devices

/-- The kernel state on entry to `Run`: the two devices in the given states and
no call made yet. -/
def CKernel.entry {σI σO : Type} (i : σI) (o : σO) : CKernel σI σO :=
  { m_SoundIn := i, m_SoundOut := o, calls := [] }

/-! ## Reading the record of calls -/

/-- Whether a call is `m_SoundIn.Read`. -/
def Call.isRead : Call → Bool
  | .SoundIn_Read _ _ _ => true
  | _ => false

/-- Whether a call is `m_SoundOut.Write`. -/
def Call.isWrite : Call → Bool
  | .SoundOut_Write _ _ _ => true
  | _ => false

/-- Whether a call goes to one of the two sound devices. -/
def Call.isSound : Call → Bool
  | .Logger_Write _ _ _ => false
  | .Screen_Rotor _ _ => false
  | _ => true

/-- The severity of a diagnostic; `none` for a call that is no diagnostic. -/
def Call.severity : Call → Option TLogSeverity
  | .Logger_Write _ s _ => some s
  | _ => none

/-- Whether a call is an allocate or start call that returned `false`. -/
def Call.failed : Call → Bool
  | .SoundIn_AllocateReadQueue _ ret => !ret
  | .SoundOut_AllocateQueue _ ret => !ret
  | .SoundIn_Start ret => !ret
  | .SoundOut_Start ret => !ret
  | _ => false

/-- The calls an execution started in state `k` added to the record. -/
def newCalls {σI σO α : Type} (k : CKernel σI σO) (e : Exec σI σO α) : List Call :=
  e.state.calls.drop k.calls.length

/-- Whether a call is one the copy loop makes: a read that is passed the byte
count `cap`, a write, the rotor, or a diagnostic of `LogWarning` severity. -/
def Call.inLoop (cap : Nat) : Call → Bool
  | .SoundIn_Read nCount _ _ => nCount == cap
  | .SoundOut_Write _ _ _ => true
  | .Screen_Rotor _ _ => true
  | .Logger_Write _ s _ => s == .LogWarning
  | _ => false

/-- The part of a record that precedes its first `m_SoundIn.Read`. -/
def beforeFirstRead (calls : List Call) : List Call :=
  calls.takeWhile (fun c => !c.isRead)

/-- The diagnostic text `Run` writes when the given allocate or start call
returns `false`. -/
def panicText : Call → String
  | .SoundIn_AllocateReadQueue _ _ => "Cannot allocate input sound queue"
  | .SoundOut_AllocateQueue _ _ => "Cannot allocate output sound queue"
  | .SoundIn_Start _ => "Cannot start input sound device"
  | .SoundOut_Start _ => "Cannot start output sound device"
  | _ => ""

/-- The record the bootstrap leaves when its four allocate and start calls
return `a`, `b`, `c`, `e` (those after the first `false` do not matter). -/
def bootstrapRecord (cfg : Config) (d : FormatDefs) (a b c e : Bool) : List Call :=
  [.Logger_Write FromKernel .LogNotice ("Compile time: " ++ cfg.compileTime),
    .SoundIn_AllocateReadQueue cfg.QUEUE_SIZE_MSECS a] ++
  if !a then [.Logger_Write FromKernel .LogPanic "Cannot allocate input sound queue"]
  else
    [.SoundIn_SetReadFormat d.FORMAT cfg.WRITE_CHANNELS,
      .SoundOut_AllocateQueue cfg.QUEUE_SIZE_MSECS b] ++
    if !b then [.Logger_Write FromKernel .LogPanic "Cannot allocate output sound queue"]
    else
      [.SoundOut_SetWriteFormat d.FORMAT cfg.WRITE_CHANNELS, .SoundIn_Start c] ++
      if !c then [.Logger_Write FromKernel .LogPanic "Cannot start input sound device"]
      else
        [.SoundOut_Start e] ++
        if !e then [.Logger_Write FromKernel .LogPanic "Cannot start output sound device"]
        else []

/-! ## Concrete devices and configurations, for running the kernel -/

/-- State of a scripted sound device: whether allocation and start succeed,
and the results the coming `Read` and `Write` calls return. -/
structure Scripted where
  allocOk : Bool
  startOk : Bool
  reads : List (Int × Buffer)
  writes : List Int
  deriving DecidableEq, Repr

/-- A sound device that follows its script; a `Read` past the end of the script
delivers nothing and a `Write` past the end accepts everything. -/
def scripted : CI2SSoundBaseDevice Scripted where
  AllocateQueue _ s := (s.allocOk, s)
  AllocateReadQueue _ s := (s.allocOk, s)
  SetWriteFormat _ _ s := s
  SetReadFormat _ _ s := s
  Start s := (s.startOk, s)
  Read _ s :=
    match s.reads with
    | [] => ((0, []), s)
    | r :: rest => (r, { s with reads := rest })
  Write _ nCount s :=
    match s.writes with
    | [] => (nCount, s)
    | w :: rest => (w, { s with writes := rest })

/-- A stereo 16-bit configuration for a 32-bit target. -/
def stereo16 : Config :=
  { SAMPLE_RATE := 48000
    CHUNK_SIZE := 3840
    WRITE_FORMAT := some 1
    WRITE_CHANNELS := 2
    QUEUE_SIZE_MSECS := 100
    compileTime := "Jan  1 2021 00:00:00"
    SIZE_BITS := 32 }

/-- The definitions the chain makes for `WRITE_FORMAT == 1`. -/
def defs16 : FormatDefs :=
  { FORMAT := .SoundFormatSigned16
    TYPE := .s16
    TYPE_SIZE := 2
    FACTOR := 32767
    NULL_LEVEL := 0 }

/-- A scripted device on which everything succeeds, with the given reads and
writes to come. -/
def working (reads : List (Int × Buffer)) (writes : List Int) : Scripted :=
  { allocOk := true, startOk := true, reads := reads, writes := writes }

/-- The value of `sizeof Buffer` in the build of a configuration; `none` when
the chain defines nothing for its `WRITE_FORMAT`. -/
def sizeofBufferOf (cfg : Config) : Option Nat :=
  (selectFormat cfg.WRITE_FORMAT).map (sizeofBuffer cfg)

/-! ## The reference table of the specification -/

/-- One row of the reference table of the specification (sections 3, 4.1):
bits of precision, signedness and byte width of a format. -/
structure SpecFormat where
  bits : Nat
  signed : Bool
  byteWidth : Nat
  deriving DecidableEq, Repr

/-- The reference table, by selector: Unsigned8, Signed16, Signed24 packed,
Signed24 padded to 32 bits. -/
def specFormat : Fin 4 → SpecFormat
  | 0 => { bits := 8, signed := false, byteWidth := 1 }
  | 1 => { bits := 16, signed := true, byteWidth := 2 }
  | 2 => { bits := 24, signed := true, byteWidth := 3 }
  | 3 => { bits := 24, signed := true, byteWidth := 4 }

/-- The full-scale factor of the specification: `2^(bits-1) - 1`. -/
def SpecFormat.fullScaleFactor (f : SpecFormat) : Int :=
  2 ^ (f.bits - 1) - 1

/-- The silence value of the specification: mid-scale `2^(bits-1)` for an
unsigned format, zero for a signed one. -/
def SpecFormat.silenceValue (f : SpecFormat) : Int :=
  if f.signed then 0 else 2 ^ (f.bits - 1)

/-- The sound format the specification names for a selector. -/
def specSoundFormat : Fin 4 → TSoundFormat
  | 0 => .SoundFormatUnsigned8
  | 1 => .SoundFormatSigned16
  | 2 => .SoundFormatSigned24
  | 3 => .SoundFormatSigned24_32

/-! ## Basic facts about the copy loop -/

section Lemmas

variable {σI σO : Type} (In : CI2SSoundBaseDevice σI) (Out : CI2SSoundBaseDevice σO)

/-- The body of the copy loop, by whether the read delivered something and
whether the write took all of it. -/
theorem Run_copyBody_eq (cfg : Config) (d : FormatDefs) (nCount : Nat) (k : CKernel σI σO) :
    Run_copyBody In Out cfg d nCount k =
      (let r := In.Read (sizeofBuffer cfg d) k.m_SoundIn
       if 0 < r.1.1 then
         let w := Out.Write r.1.2 r.1.1.toNat k.m_SoundOut
         .returned ()
           { m_SoundIn := r.2
             m_SoundOut := w.2
             calls := k.calls ++
               ([.SoundIn_Read (sizeofBuffer cfg d) r.1.1 r.1.2,
                 .SoundOut_Write r.1.2 r.1.1.toNat w.1] ++
                (if w.1 = r.1.1 then []
                 else [.Logger_Write FromKernel .LogWarning "Sound data dropped"]) ++
                [.Screen_Rotor 0 nCount]) }
       else
         .returned ()
           { m_SoundIn := r.2
             m_SoundOut := k.m_SoundOut
             calls := k.calls ++
               [.SoundIn_Read (sizeofBuffer cfg d) r.1.1 r.1.2, .Screen_Rotor 0 nCount] }) := by
  by_cases h : 0 < (In.Read (sizeofBuffer cfg d) k.m_SoundIn).1.1
  · by_cases hw : (Out.Write (In.Read (sizeofBuffer cfg d) k.m_SoundIn).1.2
        (In.Read (sizeofBuffer cfg d) k.m_SoundIn).1.1.toNat k.m_SoundOut).1 =
        (In.Read (sizeofBuffer cfg d) k.m_SoundIn).1.1
    · simp [Run_copyBody, bind, M.bind, pure, m_SoundIn_Read, m_SoundOut_Write, m_Logger_Write,
        m_Screen_Rotor, CKernel.record, h, hw]
    · simp [Run_copyBody, bind, M.bind, pure, m_SoundIn_Read, m_SoundOut_Write, m_Logger_Write,
        m_Screen_Rotor, CKernel.record, h, hw]
  · simp [Run_copyBody, bind, M.bind, pure, m_SoundIn_Read, m_SoundOut_Write, m_Logger_Write,
      m_Screen_Rotor, CKernel.record, h]

/-- When the record grew by `ex`, the new calls are `ex`. -/
theorem newCalls_of_append {α : Type} (k : CKernel σI σO) (e : Exec σI σO α) (ex : List Call)
    (h : e.state.calls = k.calls ++ ex) : newCalls k e = ex := by
  simp [newCalls, h]

/-- One more iteration: the body, then the loop with the counter advanced. -/
theorem Run_copyLoop_succ (cfg : Config) (d : FormatDefs) (m nCount : Nat) (k k1 : CKernel σI σO)
    (h : Run_copyBody In Out cfg d nCount k = .returned () k1) :
    Run_copyLoop In Out cfg d (m + 1) nCount k =
      Run_copyLoop In Out cfg d m ((nCount + 1) % 2 ^ 32) k1 := by
  simp [Run_copyLoop, bind, M.bind, h]

/-- The body of the copy loop always returns, and adds to the record a read
followed by calls of the loop only. -/
theorem Run_copyBody_returns (cfg : Config) (d : FormatDefs) (nCount : Nat) (k : CKernel σI σO) :
    ∃ k1 r b rest, Run_copyBody In Out cfg d nCount k = .returned () k1 ∧
      k1.calls = k.calls ++ (.SoundIn_Read (sizeofBuffer cfg d) r b :: rest) ∧
      (∀ x ∈ rest, x.inLoop (sizeofBuffer cfg d) = true ∧ x.isRead = false) ∧
      (r = 0 → k1.m_SoundOut = k.m_SoundOut ∧ ∀ x ∈ rest, x.isWrite = false ∧ x.severity = none) := by
  rw [Run_copyBody_eq]
  by_cases h : 0 < (In.Read (sizeofBuffer cfg d) k.m_SoundIn).1.1
  · refine ⟨_, (In.Read (sizeofBuffer cfg d) k.m_SoundIn).1.1, _, _, by simp only [h, if_true]; rfl,
      by simp only [List.cons_append, List.nil_append]; rfl, ?_, ?_⟩
    · intro x hx
      by_cases hw : (Out.Write (In.Read (sizeofBuffer cfg d) k.m_SoundIn).1.2
          (In.Read (sizeofBuffer cfg d) k.m_SoundIn).1.1.toNat k.m_SoundOut).1 =
          (In.Read (sizeofBuffer cfg d) k.m_SoundIn).1.1
      · simp [hw] at hx
        rcases hx with rfl | rfl <;> simp [Call.inLoop, Call.isRead]
      · simp [hw] at hx
        rcases hx with rfl | rfl | rfl <;> simp [Call.inLoop, Call.isRead]
    · intro h0
      omega
  · refine ⟨_, (In.Read (sizeofBuffer cfg d) k.m_SoundIn).1.1, _, _, by simp only [h, if_false]; rfl,
      rfl, ?_, ?_⟩
    · intro x hx
      simp at hx
      subst hx
      simp [Call.inLoop, Call.isRead]
    · intro _
      refine ⟨rfl, ?_⟩
      intro x hx
      simp at hx
      subst hx
      simp [Call.isWrite, Call.severity]

/-- Any number of runs of the loop body returns; the calls it adds are calls
of the loop, begin with a read when there are any, and hold one read per
iteration. -/
theorem Run_copyLoop_returns (cfg : Config) (d : FormatDefs) (m : Nat) :
    ∀ (nCount : Nat) (k : CKernel σI σO),
      ∃ k1 ex, Run_copyLoop In Out cfg d m nCount k = .returned () k1 ∧
        k1.calls = k.calls ++ ex ∧
        (∀ x ∈ ex, x.inLoop (sizeofBuffer cfg d) = true) ∧
        beforeFirstRead ex = [] ∧
        (ex.filter Call.isRead).length = m := by
  induction m with
  | zero =>
    intro nCount k
    exact ⟨k, [], rfl, by simp, by simp, rfl, rfl⟩
  | succ m ih =>
    intro nCount k
    obtain ⟨k1, r, b, rest, hbody, hcalls, hrest, -⟩ := Run_copyBody_returns In Out cfg d nCount k
    obtain ⟨k2, ex, hloop, hcalls2, hex, -, hlen⟩ := ih ((nCount + 1) % 2 ^ 32) k1
    refine ⟨k2, .SoundIn_Read (sizeofBuffer cfg d) r b :: rest ++ ex, ?_, ?_, ?_, ?_, ?_⟩
    · rw [Run_copyLoop_succ In Out cfg d m nCount k k1 hbody, hloop]
    · rw [hcalls2, hcalls]; simp
    · intro x hx
      simp at hx
      rcases hx with rfl | hx | hx
      · simp [Call.inLoop]
      · exact (hrest x hx).1
      · exact hex x hx
    · simp [beforeFirstRead, Call.isRead]
    · have hr : rest.filter Call.isRead = [] := by
        rw [List.filter_eq_nil_iff]
        intro x hx
        simp [(hrest x hx).2]
      simp [List.filter_cons, Call.isRead, hr, hlen]

/-- While every read of the loop returns 0, the playback device is left alone
and the loop adds neither a write nor a diagnostic. -/
theorem Run_copyLoop_idle (cfg : Config) (d : FormatDefs) (m : Nat) :
    ∀ (nCount : Nat) (k : CKernel σI σO),
      (∀ x ∈ newCalls k (Run_copyLoop In Out cfg d m nCount k),
        ∀ sz r b, x = Call.SoundIn_Read sz r b → r = 0) →
      (Run_copyLoop In Out cfg d m nCount k).state.m_SoundOut = k.m_SoundOut ∧
      ∀ x ∈ newCalls k (Run_copyLoop In Out cfg d m nCount k),
        x.isWrite = false ∧ x.severity = none := by
  induction m with
  | zero =>
    intro nCount k _
    simp [Run_copyLoop, pure, Exec.state, newCalls]
  | succ m ih =>
    intro nCount k hidle
    obtain ⟨k1, r, b, rest, hbody, hcalls, -, hzero⟩ := Run_copyBody_returns In Out cfg d nCount k
    obtain ⟨k2, ex, hloop, hcalls2, -, -, -⟩ :=
      Run_copyLoop_returns In Out cfg d m ((nCount + 1) % 2 ^ 32) k1
    have hstep := Run_copyLoop_succ In Out cfg d m nCount k k1 hbody
    have hnew : newCalls k (Run_copyLoop In Out cfg d (m + 1) nCount k) =
        .SoundIn_Read (sizeofBuffer cfg d) r b :: rest ++ ex := by
      apply newCalls_of_append
      rw [hstep, hloop]
      simp [Exec.state, hcalls2, hcalls]
    have hnew1 : newCalls k1 (Run_copyLoop In Out cfg d m ((nCount + 1) % 2 ^ 32) k1) = ex := by
      apply newCalls_of_append
      rw [hloop]
      simpa [Exec.state] using hcalls2
    rw [hnew] at hidle ⊢
    have hr : r = 0 :=
      hidle (.SoundIn_Read (sizeofBuffer cfg d) r b) (by simp) (sizeofBuffer cfg d) r b rfl
    obtain ⟨hout, hrest⟩ := hzero hr
    have ih1 := ih ((nCount + 1) % 2 ^ 32) k1 (by
      rw [hnew1]
      intro x hx
      exact hidle x (by simp [hx]))
    rw [hnew1] at ih1
    refine ⟨?_, ?_⟩
    · rw [hstep, ih1.1, hout]
    · intro x hx
      simp at hx
      rcases hx with rfl | hx | hx
      · simp [Call.isWrite, Call.severity]
      · exact hrest x hx
      · exact ih1.2 x hx

/-- Running `m + j` iterations is running `m` and then `j` more, with the
32-bit counter advanced by `m` modulo `2 ^ 32`. -/
theorem Run_copyLoop_add (cfg : Config) (d : FormatDefs) (j m : Nat) :
    ∀ (nCount : Nat) (k k1 : CKernel σI σO), nCount < 2 ^ 32 →
      Run_copyLoop In Out cfg d m nCount k = .returned () k1 →
      Run_copyLoop In Out cfg d (m + j) nCount k =
        Run_copyLoop In Out cfg d j ((nCount + m) % 2 ^ 32) k1 := by
  induction m with
  | zero =>
    intro nCount k k1 hc h
    simp only [Run_copyLoop, pure, Exec.returned.injEq, true_and] at h
    subst h
    have e : (nCount + 0) % 2 ^ 32 = nCount := by omega
    rw [e, Nat.zero_add]
  | succ m ih =>
    intro nCount k k1 hc h
    obtain ⟨k0, _, _, _, hbody, -, -, -⟩ := Run_copyBody_returns In Out cfg d nCount k
    rw [Run_copyLoop_succ In Out cfg d m nCount k k0 hbody] at h
    have e : m + 1 + j = (m + j) + 1 := by omega
    rw [e, Run_copyLoop_succ In Out cfg d (m + j) nCount k k0 hbody, ih _ _ _ (by omega) h]
    have e2 : ((nCount + 1) % 2 ^ 32 + m) % 2 ^ 32 = (nCount + (m + 1)) % 2 ^ 32 := by omega
    rw [e2]

/-- The outcome of the bootstrap, by the first call that returns `false`. -/
theorem Run_bootstrap_eq (cfg : Config) (d : FormatDefs) (k : CKernel σI σO) :
    Run_bootstrap In Out cfg d k =
      (let a := In.AllocateReadQueue cfg.QUEUE_SIZE_MSECS k.m_SoundIn
       let i1 := In.SetReadFormat d.FORMAT cfg.WRITE_CHANNELS a.2
       let b := Out.AllocateQueue cfg.QUEUE_SIZE_MSECS k.m_SoundOut
       let o1 := Out.SetWriteFormat d.FORMAT cfg.WRITE_CHANNELS b.2
       let c := In.Start i1
       let e := Out.Start o1
       let notice := Call.Logger_Write FromKernel .LogNotice ("Compile time: " ++ cfg.compileTime)
       if a.1 = false then
         .halted
           { m_SoundIn := a.2
             m_SoundOut := k.m_SoundOut
             calls := k.calls ++
               [notice, .SoundIn_AllocateReadQueue cfg.QUEUE_SIZE_MSECS false,
                 .Logger_Write FromKernel .LogPanic "Cannot allocate input sound queue"] }
       else if b.1 = false then
         .halted
           { m_SoundIn := i1
             m_SoundOut := b.2
             calls := k.calls ++
               [notice, .SoundIn_AllocateReadQueue cfg.QUEUE_SIZE_MSECS true,
                 .SoundIn_SetReadFormat d.FORMAT cfg.WRITE_CHANNELS,
                 .SoundOut_AllocateQueue cfg.QUEUE_SIZE_MSECS false,
                 .Logger_Write FromKernel .LogPanic "Cannot allocate output sound queue"] }
       else if c.1 = false then
         .halted
           { m_SoundIn := c.2
             m_SoundOut := o1
             calls := k.calls ++
               [notice, .SoundIn_AllocateReadQueue cfg.QUEUE_SIZE_MSECS true,
                 .SoundIn_SetReadFormat d.FORMAT cfg.WRITE_CHANNELS,
                 .SoundOut_AllocateQueue cfg.QUEUE_SIZE_MSECS true,
                 .SoundOut_SetWriteFormat d.FORMAT cfg.WRITE_CHANNELS,
                 .SoundIn_Start false,
                 .Logger_Write FromKernel .LogPanic "Cannot start input sound device"] }
       else if e.1 = false then
         .halted
           { m_SoundIn := c.2
             m_SoundOut := e.2
             calls := k.calls ++
               [notice, .SoundIn_AllocateReadQueue cfg.QUEUE_SIZE_MSECS true,
                 .SoundIn_SetReadFormat d.FORMAT cfg.WRITE_CHANNELS,
                 .SoundOut_AllocateQueue cfg.QUEUE_SIZE_MSECS true,
                 .SoundOut_SetWriteFormat d.FORMAT cfg.WRITE_CHANNELS,
                 .SoundIn_Start true, .SoundOut_Start false,
                 .Logger_Write FromKernel .LogPanic "Cannot start output sound device"] }
       else
         .returned ()
           { m_SoundIn := c.2
             m_SoundOut := e.2
             calls := k.calls ++
               [notice, .SoundIn_AllocateReadQueue cfg.QUEUE_SIZE_MSECS true,
                 .SoundIn_SetReadFormat d.FORMAT cfg.WRITE_CHANNELS,
                 .SoundOut_AllocateQueue cfg.QUEUE_SIZE_MSECS true,
                 .SoundOut_SetWriteFormat d.FORMAT cfg.WRITE_CHANNELS,
                 .SoundIn_Start true, .SoundOut_Start true] }) := by
  cases ha : (In.AllocateReadQueue cfg.QUEUE_SIZE_MSECS k.m_SoundIn).1
  · simp [Run_bootstrap, bind, M.bind, pure, m_SoundIn_AllocateReadQueue, m_Logger_Write,
      CKernel.record, ha]
  · cases hb : (Out.AllocateQueue cfg.QUEUE_SIZE_MSECS k.m_SoundOut).1
    · simp [Run_bootstrap, bind, M.bind, pure, m_SoundIn_AllocateReadQueue, m_Logger_Write,
        m_SoundIn_SetReadFormat, m_SoundOut_AllocateQueue, CKernel.record, ha, hb]
    · cases hc : (In.Start (In.SetReadFormat d.FORMAT cfg.WRITE_CHANNELS
          (In.AllocateReadQueue cfg.QUEUE_SIZE_MSECS k.m_SoundIn).2)).1
      · simp [Run_bootstrap, bind, M.bind, pure, m_SoundIn_AllocateReadQueue, m_Logger_Write,
          m_SoundIn_SetReadFormat, m_SoundOut_AllocateQueue, m_SoundOut_SetWriteFormat,
          m_SoundIn_Start, CKernel.record, ha, hb, hc]
      · cases he : (Out.Start (Out.SetWriteFormat d.FORMAT cfg.WRITE_CHANNELS
            (Out.AllocateQueue cfg.QUEUE_SIZE_MSECS k.m_SoundOut).2)).1
        · simp [Run_bootstrap, bind, M.bind, pure, m_SoundIn_AllocateReadQueue, m_Logger_Write,
            m_SoundIn_SetReadFormat, m_SoundOut_AllocateQueue, m_SoundOut_SetWriteFormat,
            m_SoundIn_Start, m_SoundOut_Start, CKernel.record, ha, hb, hc, he]
        · simp [Run_bootstrap, bind, M.bind, pure, m_SoundIn_AllocateReadQueue, m_Logger_Write,
            m_SoundIn_SetReadFormat, m_SoundOut_AllocateQueue, m_SoundOut_SetWriteFormat,
            m_SoundIn_Start, m_SoundOut_Start, CKernel.record, ha, hb, hc, he]

/-- The record of `Run`: what the bootstrap leaves, followed, when all four
calls succeeded, by the calls of the copy loop; otherwise the process is
halted and nothing follows. -/
theorem Run_outcome (cfg : Config) (d : FormatDefs) (n : Nat) (k : CKernel σI σO) :
    ∃ a b c e ex,
      (Run In Out cfg d n k).state.calls = k.calls ++ (bootstrapRecord cfg d a b c e ++ ex) ∧
      (Run In Out cfg d n k).isHalted = !(a && b && c && e) ∧
      ((a && b && c && e) = false → ex = []) ∧
      (∀ x ∈ ex, x.inLoop (sizeofBuffer cfg d) = true) ∧
      beforeFirstRead ex = [] ∧
      ((a && b && c && e) = true → (ex.filter Call.isRead).length = n) := by
  cases ha : (In.AllocateReadQueue cfg.QUEUE_SIZE_MSECS k.m_SoundIn).1
  · refine ⟨false, false, false, false, [], ?_, ?_, by simp, by simp, rfl, by simp⟩ <;>
      simp [Run, bind, M.bind, Run_bootstrap_eq, ha, Exec.state, Exec.isHalted, bootstrapRecord]
  · cases hb : (Out.AllocateQueue cfg.QUEUE_SIZE_MSECS k.m_SoundOut).1
    · refine ⟨true, false, false, false, [], ?_, ?_, by simp, by simp, rfl, by simp⟩ <;>
        simp [Run, bind, M.bind, Run_bootstrap_eq, ha, hb, Exec.state, Exec.isHalted,
          bootstrapRecord]
    · cases hc : (In.Start (In.SetReadFormat d.FORMAT cfg.WRITE_CHANNELS
          (In.AllocateReadQueue cfg.QUEUE_SIZE_MSECS k.m_SoundIn).2)).1
      · refine ⟨true, true, false, false, [], ?_, ?_, by simp, by simp, rfl, by simp⟩ <;>
          simp [Run, bind, M.bind, Run_bootstrap_eq, ha, hb, hc, Exec.state, Exec.isHalted,
            bootstrapRecord]
      · cases he : (Out.Start (Out.SetWriteFormat d.FORMAT cfg.WRITE_CHANNELS
            (Out.AllocateQueue cfg.QUEUE_SIZE_MSECS k.m_SoundOut).2)).1
        · refine ⟨true, true, true, false, [], ?_, ?_, by simp, by simp, rfl, by simp⟩ <;>
            simp [Run, bind, M.bind, Run_bootstrap_eq, ha, hb, hc, he, Exec.state, Exec.isHalted,
              bootstrapRecord]
        · have hrun : ∃ k0, Run In Out cfg d n k = Run_copyLoop In Out cfg d n 0 k0 ∧
              k0.calls = k.calls ++ bootstrapRecord cfg d true true true true := by
            refine ⟨{ m_SoundIn := (In.Start (In.SetReadFormat d.FORMAT cfg.WRITE_CHANNELS
                  (In.AllocateReadQueue cfg.QUEUE_SIZE_MSECS k.m_SoundIn).2)).2
                      m_SoundOut := (Out.Start (Out.SetWriteFormat d.FORMAT cfg.WRITE_CHANNELS
                  (Out.AllocateQueue cfg.QUEUE_SIZE_MSECS k.m_SoundOut).2)).2
                      calls := k.calls ++ bootstrapRecord cfg d true true true true }, ?_, rfl⟩
            simp [Run, bind, M.bind, Run_bootstrap_eq, ha, hb, hc, he, bootstrapRecord]
          obtain ⟨k0, hrun, hk0⟩ := hrun
          obtain ⟨k1, ex, hloop, hcalls, hex, hfirst, hlen⟩ :=
            Run_copyLoop_returns In Out cfg d n 0 k0
          refine ⟨true, true, true, true, ex, ?_, ?_, by simp, hex, hfirst, fun _ => hlen⟩
          · rw [hrun, hloop]
            simp [Exec.state, hcalls, hk0]
          · rw [hrun, hloop]
            rfl

/-- No call of the copy loop is a failed allocate or start call. -/
theorem inLoop_not_failed (cap : Nat) (x : Call) (h : x.inLoop cap = true) : x.failed = false := by
  cases x <;> simp_all [Call.inLoop, Call.failed]

/-- Every branch of the chain defines a `TYPE_SIZE` between 1 and 4. -/
theorem selectFormat_TYPE_SIZE (w : Option Int) (d : FormatDefs) (h : selectFormat w = some d) :
    1 ≤ d.TYPE_SIZE ∧ d.TYPE_SIZE ≤ 4 := by
  unfold selectFormat at h
  split_ifs at h <;> simp only [Option.some.injEq] at h <;> subst h <;> decide

/-- Within the 64-bit range of the preprocessor a selector is one of 0..3
exactly when its residue is. -/
theorem preprocessorValue_eq_iff (v : Int) (hlo : -(2 ^ 63) ≤ v) (hhi : v < 2 ^ 64) (k : Int)
    (hk0 : 0 ≤ k) (hk3 : k ≤ 3) : preprocessorValue (some v) = k ↔ v = k := by
  unfold preprocessorValue
  norm_num at hlo hhi ⊢
  omega

end Lemmas

/-! ## The copy loop: claims C3, C4, C5 -/

section CopyLoopClaims

variable {σI σO : Type} (In : CI2SSoundBaseDevice σI) (Out : CI2SSoundBaseDevice σO)

/-- C3: in an iteration of the copy loop whose capture read returns `n > 0`
and leaves `filled` in the buffer, the iteration begins with that read, issues
exactly one write to the playback device, and that write is handed the buffer
`filled` as the read left it with a requested length of exactly `n`. -/
theorem C3_copy_writes_what_was_read (cfg : Config) (d : FormatDefs) (nCount : Nat)
    (k : CKernel σI σO) (n : Int) (filled : Buffer) (s : σI)
    (hread : In.Read (sizeofBuffer cfg d) k.m_SoundIn = ((n, filled), s)) (hn : 0 < n) :
    (newCalls k (Run_copyBody In Out cfg d nCount k)).head? =
        some (.SoundIn_Read (sizeofBuffer cfg d) n filled) ∧
      (∃ w, (newCalls k (Run_copyBody In Out cfg d nCount k)).filter Call.isWrite =
        [.SoundOut_Write filled n.toNat w]) ∧
      (n.toNat : Int) = n := by
  have hcalls : newCalls k (Run_copyBody In Out cfg d nCount k) =
      [.SoundIn_Read (sizeofBuffer cfg d) n filled,
        .SoundOut_Write filled n.toNat (Out.Write filled n.toNat k.m_SoundOut).1] ++
      (if (Out.Write filled n.toNat k.m_SoundOut).1 = n then []
        else [.Logger_Write FromKernel .LogWarning "Sound data dropped"]) ++
      [.Screen_Rotor 0 nCount] := by
    apply newCalls_of_append
    rw [Run_copyBody_eq]
    simp [hread, hn, Exec.state]
  rw [hcalls]
  refine ⟨rfl, ⟨(Out.Write filled n.toNat k.m_SoundOut).1, ?_⟩, Int.toNat_of_nonneg hn.le⟩
  by_cases hw : (Out.Write filled n.toNat k.m_SoundOut).1 = n <;>
    simp [hw, List.filter_cons, Call.isWrite]

/-- C4: in an iteration whose read returned `n > 0` and whose write returned
`w ≤ n`, the diagnostics of `LogWarning` severity are exactly one when `w < n`
and none when `w = n`; no diagnostic of `LogPanic` severity is written, the body
returns, and the loop carries on with the next iteration. -/
theorem C4_short_write_warns_once (cfg : Config) (d : FormatDefs) (nCount : Nat)
    (k : CKernel σI σO) (n : Int) (filled : Buffer) (s : σI) (w : Int) (t : σO)
    (hread : In.Read (sizeofBuffer cfg d) k.m_SoundIn = ((n, filled), s)) (hn : 0 < n)
    (hwrite : Out.Write filled n.toNat k.m_SoundOut = (w, t)) (hw : w ≤ n) :
    (newCalls k (Run_copyBody In Out cfg d nCount k)).filter
        (fun c => c.severity = some .LogWarning) =
        (if w < n then [.Logger_Write FromKernel .LogWarning "Sound data dropped"] else []) ∧
      (∀ c ∈ newCalls k (Run_copyBody In Out cfg d nCount k), c.severity ≠ some .LogPanic) ∧
      ∃ k1, Run_copyBody In Out cfg d nCount k = .returned () k1 ∧
        ∀ m, Run_copyLoop In Out cfg d (m + 1) nCount k =
          Run_copyLoop In Out cfg d m ((nCount + 1) % 2 ^ 32) k1 := by
  have hcalls : newCalls k (Run_copyBody In Out cfg d nCount k) =
      [.SoundIn_Read (sizeofBuffer cfg d) n filled, .SoundOut_Write filled n.toNat w] ++
      (if w = n then [] else [.Logger_Write FromKernel .LogWarning "Sound data dropped"]) ++
      [.Screen_Rotor 0 nCount] := by
    apply newCalls_of_append
    rw [Run_copyBody_eq]
    simp [hread, hn, hwrite, Exec.state]
  rw [hcalls]
  refine ⟨?_, ?_, ?_⟩
  · by_cases hne : w = n
    · simp [hne, List.filter_cons, Call.severity]
    · have hlt : w < n := by omega
      simp [hne, hlt, List.filter_cons, Call.severity]
  · intro c hc
    by_cases hne : w = n
    · simp [hne] at hc
      rcases hc with rfl | rfl | rfl <;> simp [Call.severity]
    · simp [hne] at hc
      rcases hc with rfl | rfl | rfl | rfl <;> simp [Call.severity]
  · obtain ⟨k1, _, _, _, hbody, -, -, -⟩ := Run_copyBody_returns In Out cfg d nCount k
    exact ⟨k1, hbody, fun m => Run_copyLoop_succ In Out cfg d m nCount k k1 hbody⟩

/-- C5: for any number `m` of iterations of the copy loop in a row in which
every capture read returns 0 (in particular for one such iteration), no write
is issued to the playback device, no diagnostic of any severity is written, the
state of the playback device is left as it was, all `m` iterations run (one
read each, the process is not halted), and the loop carries on with the
iterations that follow. -/
theorem C5_zero_reads_touch_nothing (cfg : Config) (d : FormatDefs) (m nCount : Nat)
    (k : CKernel σI σO) (hcount : nCount < 2 ^ 32)
    (hidle : ∀ x ∈ newCalls k (Run_copyLoop In Out cfg d m nCount k),
      ∀ sz r b, x = Call.SoundIn_Read sz r b → r = 0) :
    (∀ x ∈ newCalls k (Run_copyLoop In Out cfg d m nCount k),
        x.isWrite = false ∧ x.severity = none) ∧
      (Run_copyLoop In Out cfg d m nCount k).state.m_SoundOut = k.m_SoundOut ∧
      ((newCalls k (Run_copyLoop In Out cfg d m nCount k)).filter Call.isRead).length = m ∧
      ∃ k1, Run_copyLoop In Out cfg d m nCount k = .returned () k1 ∧
        ∀ j, Run_copyLoop In Out cfg d (m + j) nCount k =
          Run_copyLoop In Out cfg d j ((nCount + m) % 2 ^ 32) k1 := by
  obtain ⟨hout, hnone⟩ := Run_copyLoop_idle In Out cfg d m nCount k hidle
  obtain ⟨k1, ex, hloop, hcalls, -, -, hlen⟩ := Run_copyLoop_returns In Out cfg d m nCount k
  have hnew : newCalls k (Run_copyLoop In Out cfg d m nCount k) = ex := by
    apply newCalls_of_append
    rw [hloop]
    simpa [Exec.state] using hcalls
  refine ⟨hnone, hout, by rw [hnew]; exact hlen, k1, hloop, fun j => ?_⟩
  exact Run_copyLoop_add In Out cfg d j m nCount k k1 hcount hloop

/-- C3 at a concrete input: a read of 4 bytes is followed by one write of
those 4 bytes. -/
theorem C3_copy_writes_what_was_read_witness :
    (0 : Int) < 4 ∧
      (newCalls (CKernel.entry (working [(4, [1, 2, 3, 4])] []) (working [] []))
          (Run_copyBody scripted scripted stereo16 defs16 0
            (CKernel.entry (working [(4, [1, 2, 3, 4])] []) (working [] [])))).head? =
        some (.SoundIn_Read 4000 4 [1, 2, 3, 4]) ∧
      (∃ w, (newCalls (CKernel.entry (working [(4, [1, 2, 3, 4])] []) (working [] []))
          (Run_copyBody scripted scripted stereo16 defs16 0
            (CKernel.entry (working [(4, [1, 2, 3, 4])] []) (working [] [])))).filter Call.isWrite =
        [.SoundOut_Write [1, 2, 3, 4] 4 w]) ∧
      (((4 : Int).toNat : Nat) : Int) = 4 :=
  ⟨by decide,
    C3_copy_writes_what_was_read scripted scripted stereo16 defs16 0
      (CKernel.entry (working [(4, [1, 2, 3, 4])] []) (working [] [])) 4 [1, 2, 3, 4]
      (working [] []) rfl (by decide)⟩

/-- C4 at a concrete input: 4 bytes read, 3 accepted by the write, one
warning. -/
theorem C4_short_write_warns_once_witness :
    (0 : Int) < 4 ∧ (3 : Int) ≤ 4 ∧
      (newCalls (CKernel.entry (working [(4, [1, 2, 3, 4])] []) (working [] [3]))
          (Run_copyBody scripted scripted stereo16 defs16 7
            (CKernel.entry (working [(4, [1, 2, 3, 4])] []) (working [] [3])))).filter
          (fun c => c.severity = some .LogWarning) =
        [.Logger_Write FromKernel .LogWarning "Sound data dropped"] :=
  ⟨by decide, by decide,
    (C4_short_write_warns_once scripted scripted stereo16 defs16 7
      (CKernel.entry (working [(4, [1, 2, 3, 4])] []) (working [] [3])) 4 [1, 2, 3, 4]
      (working [] []) 3 (working [] []) rfl (by decide) rfl (by decide)).1⟩

/-- C5 at a concrete input: three iterations on an idle capture device. -/
theorem C5_zero_reads_touch_nothing_witness :
    (Run_copyLoop scripted scripted stereo16 defs16 3 0
        (CKernel.entry (working [] []) (working [] [5]))).state.m_SoundOut = working [] [5] ∧
      ((newCalls (CKernel.entry (working [] []) (working [] [5]))
        (Run_copyLoop scripted scripted stereo16 defs16 3 0
          (CKernel.entry (working [] []) (working [] [5])))).filter Call.isRead).length = 3 :=
  have h := C5_zero_reads_touch_nothing scripted scripted stereo16 defs16 3 0
    (CKernel.entry (working [] []) (working [] [5])) (by decide) (by
      intro x hx sz r b hxe
      have hc : newCalls (CKernel.entry (working [] []) (working [] [5]))
          (Run_copyLoop scripted scripted stereo16 defs16 3 0
            (CKernel.entry (working [] []) (working [] [5]))) =
          [.SoundIn_Read 4000 0 [], .Screen_Rotor 0 0, .SoundIn_Read 4000 0 [], .Screen_Rotor 0 1,
            .SoundIn_Read 4000 0 [], .Screen_Rotor 0 2] := rfl
      rw [hc] at hx
      subst hxe
      simp at hx
      omega)
  ⟨h.2.1, h.2.2.1⟩

end CopyLoopClaims

/-! ## The bootstrap: claims C1, C2, C10 -/

section BootstrapClaims

variable {σI σO : Type} (In : CI2SSoundBaseDevice σI) (Out : CI2SSoundBaseDevice σO)

/-- C1: in every run of `Run` in which no allocate or start call returns
`false`, the calls made on the two sound devices before the first read of the
copy loop are exactly: allocate capture queue, set capture format, allocate
playback queue, set playback format, start capture, start playback, in that
order and once each; the process is not halted and the copy loop runs (one read
per iteration). -/
theorem C1_bootstrap_order (cfg : Config) (d : FormatDefs) (n : Nat) (i : σI) (o : σO)
    (hok : ∀ x ∈ (Run In Out cfg d n (CKernel.entry i o)).state.calls, x.failed = false) :
    (beforeFirstRead (Run In Out cfg d n (CKernel.entry i o)).state.calls).filter Call.isSound =
        [.SoundIn_AllocateReadQueue cfg.QUEUE_SIZE_MSECS true,
          .SoundIn_SetReadFormat d.FORMAT cfg.WRITE_CHANNELS,
          .SoundOut_AllocateQueue cfg.QUEUE_SIZE_MSECS true,
          .SoundOut_SetWriteFormat d.FORMAT cfg.WRITE_CHANNELS,
          .SoundIn_Start true,
          .SoundOut_Start true] ∧
      (Run In Out cfg d n (CKernel.entry i o)).isHalted = false ∧
      ((Run In Out cfg d n (CKernel.entry i o)).state.calls.filter Call.isRead).length = n := by
  obtain ⟨a, b, c, e, ex, hcalls, hhalt, -, hex, hfirst, hlen⟩ :=
    Run_outcome In Out cfg d n (CKernel.entry i o)
  rw [hcalls] at hok ⊢
  rw [hhalt]
  have hall : a = true ∧ b = true ∧ c = true ∧ e = true := by
    rcases a <;> rcases b <;> rcases c <;> rcases e <;>
      simp [CKernel.entry, bootstrapRecord, Call.failed] at hok ⊢
  obtain ⟨rfl, rfl, rfl, rfl⟩ := hall
  have hfirst1 : List.takeWhile (fun c => !c.isRead) ex = [] := hfirst
  have hbefore : beforeFirstRead ((CKernel.entry i o).calls ++
      (bootstrapRecord cfg d true true true true ++ ex)) =
      bootstrapRecord cfg d true true true true := by
    unfold beforeFirstRead
    rw [show (CKernel.entry i o).calls = [] from rfl, List.nil_append,
      List.takeWhile_append_of_pos (by simp [bootstrapRecord, Call.isRead]), hfirst1,
      List.append_nil]
  refine ⟨?_, rfl, ?_⟩
  · rw [hbefore]
    simp [bootstrapRecord, List.filter_cons, Call.isSound]
  · simp [CKernel.entry, bootstrapRecord, List.filter_cons, Call.isRead, hlen]

/-- C1 at a concrete input: two devices on which everything succeeds, two
iterations of the loop. -/
theorem C1_bootstrap_order_witness :
    (∀ x ∈ (Run scripted scripted stereo16 defs16 2
        (CKernel.entry (working [] []) (working [] []))).state.calls, x.failed = false) ∧
      (beforeFirstRead (Run scripted scripted stereo16 defs16 2
        (CKernel.entry (working [] []) (working [] []))).state.calls).filter Call.isSound =
        [.SoundIn_AllocateReadQueue 100 true,
          .SoundIn_SetReadFormat .SoundFormatSigned16 2,
          .SoundOut_AllocateQueue 100 true,
          .SoundOut_SetWriteFormat .SoundFormatSigned16 2,
          .SoundIn_Start true,
          .SoundOut_Start true] :=
  have hok : ∀ x ∈ (Run scripted scripted stereo16 defs16 2
      (CKernel.entry (working [] []) (working [] []))).state.calls, x.failed = false := by
    decide
  ⟨hok, (C1_bootstrap_order scripted scripted stereo16 defs16 2 (working [] []) (working [] [])
    hok).1⟩

/-- C2: in every run of `Run` in which one of the calls `AllocateReadQueue`,
`AllocateQueue`, `m_SoundIn.Start`, `m_SoundOut.Start` returns `false`, the
process is halted; the record ends with that call followed by the
`LogPanic` diagnostic of that step, so nothing is called on either device
after it; no call before it failed or wrote a `LogPanic` diagnostic; and no
`Read` and no `Write` is ever issued.  (The halt is the behaviour of a
`LogPanic` diagnostic.) -/
theorem C2_failure_halts_before_copy (cfg : Config) (d : FormatDefs) (n : Nat) (i : σI) (o : σO)
    (hfail : ∃ x ∈ (Run In Out cfg d n (CKernel.entry i o)).state.calls, x.failed = true) :
    (Run In Out cfg d n (CKernel.entry i o)).isHalted = true ∧
      (∃ pre c, (Run In Out cfg d n (CKernel.entry i o)).state.calls =
          pre ++ [c, .Logger_Write FromKernel .LogPanic (panicText c)] ∧
        c.failed = true ∧
        ∀ x ∈ pre, x.failed = false ∧ x.severity ≠ some .LogPanic) ∧
      ∀ x ∈ (Run In Out cfg d n (CKernel.entry i o)).state.calls,
        x.isRead = false ∧ x.isWrite = false := by
  obtain ⟨a, b, c, e, ex, hcalls, hhalt, hnil, hex, -, -⟩ :=
    Run_outcome In Out cfg d n (CKernel.entry i o)
  rw [hcalls] at hfail ⊢
  rw [hhalt]
  by_cases hall : (a && b && c && e) = true
  · exfalso
    simp only [Bool.and_eq_true] at hall
    obtain ⟨⟨⟨rfl, rfl⟩, rfl⟩, rfl⟩ := hall
    obtain ⟨x, hx, hf⟩ := hfail
    simp only [CKernel.entry, bootstrapRecord, List.nil_append, List.mem_append] at hx
    rcases hx with hx | hx
    · simp at hx
      casesm* _ ∨ _ <;> subst_vars <;> simp [Call.failed] at hf
    · rw [inLoop_not_failed _ x (hex x hx)] at hf
      exact Bool.noConfusion hf
  · have hex0 : ex = [] := hnil (by simpa using hall)
    subst hex0
    rcases a with _ | _
    · refine ⟨by simp, ⟨[.Logger_Write FromKernel .LogNotice ("Compile time: " ++ cfg.compileTime)],
        .SoundIn_AllocateReadQueue cfg.QUEUE_SIZE_MSECS false, ?_, rfl, ?_⟩, ?_⟩ <;>
        simp [CKernel.entry, bootstrapRecord, panicText, Call.failed, Call.severity, Call.isRead,
          Call.isWrite]
    · rcases b with _ | _
      · refine ⟨by simp, ⟨[.Logger_Write FromKernel .LogNotice ("Compile time: " ++ cfg.compileTime),
            .SoundIn_AllocateReadQueue cfg.QUEUE_SIZE_MSECS true,
            .SoundIn_SetReadFormat d.FORMAT cfg.WRITE_CHANNELS],
          .SoundOut_AllocateQueue cfg.QUEUE_SIZE_MSECS false, ?_, rfl, ?_⟩, ?_⟩ <;>
          simp [CKernel.entry, bootstrapRecord, panicText, Call.failed, Call.severity, Call.isRead,
            Call.isWrite]
      · rcases c with _ | _
        · refine ⟨by simp, ⟨[.Logger_Write FromKernel .LogNotice ("Compile time: " ++ cfg.compileTime),
              .SoundIn_AllocateReadQueue cfg.QUEUE_SIZE_MSECS true,
              .SoundIn_SetReadFormat d.FORMAT cfg.WRITE_CHANNELS,
              .SoundOut_AllocateQueue cfg.QUEUE_SIZE_MSECS true,
              .SoundOut_SetWriteFormat d.FORMAT cfg.WRITE_CHANNELS],
            .SoundIn_Start false, ?_, rfl, ?_⟩, ?_⟩ <;>
            simp [CKernel.entry, bootstrapRecord, panicText, Call.failed, Call.severity,
              Call.isRead, Call.isWrite]
        · rcases e with _ | _
          · refine ⟨by simp, ⟨[.Logger_Write FromKernel .LogNotice
                  ("Compile time: " ++ cfg.compileTime),
                .SoundIn_AllocateReadQueue cfg.QUEUE_SIZE_MSECS true,
                .SoundIn_SetReadFormat d.FORMAT cfg.WRITE_CHANNELS,
                .SoundOut_AllocateQueue cfg.QUEUE_SIZE_MSECS true,
                .SoundOut_SetWriteFormat d.FORMAT cfg.WRITE_CHANNELS,
                .SoundIn_Start true],
              .SoundOut_Start false, ?_, rfl, ?_⟩, ?_⟩ <;>
              simp [CKernel.entry, bootstrapRecord, panicText, Call.failed, Call.severity,
                Call.isRead, Call.isWrite]
          · simp at hall

/-- C2 at a concrete input: the capture device cannot be started. -/
theorem C2_failure_halts_before_copy_witness :
    (∃ x ∈ (Run scripted scripted stereo16 defs16 3
        (CKernel.entry { allocOk := true, startOk := false, reads := [(4, [1, 2, 3, 4])], writes := [] }
          (working [] []))).state.calls, x.failed = true) ∧
      (Run scripted scripted stereo16 defs16 3
        (CKernel.entry { allocOk := true, startOk := false, reads := [(4, [1, 2, 3, 4])], writes := [] }
          (working [] []))).isHalted = true :=
  have hfail : ∃ x ∈ (Run scripted scripted stereo16 defs16 3
      (CKernel.entry { allocOk := true, startOk := false, reads := [(4, [1, 2, 3, 4])], writes := [] }
        (working [] []))).state.calls, x.failed = true :=
    ⟨.SoundIn_Start false, by decide, rfl⟩
  ⟨hfail, (C2_failure_halts_before_copy scripted scripted stereo16 defs16 3
    { allocOk := true, startOk := false, reads := [(4, [1, 2, 3, 4])], writes := [] }
    (working [] []) hfail).1⟩

/-- C10: the constructor hands both sound devices the same sample rate and
chunk size; in every run of `Run`, every queue allocation on either device asks
for `QUEUE_SIZE_MSECS` milliseconds and every format call on either device
passes `FORMAT` and `WRITE_CHANNELS`; and in a run that is not halted all four
of these calls were made. -/
theorem C10_endpoints_configured_alike (cfg : Config) (m_Options : CKernelOptions)
    (d : FormatDefs) (n : Nat) (i : σI) (o : σO) :
    (CKernel_CKernel cfg m_Options).m_SoundIn.nSampleRate =
        (CKernel_CKernel cfg m_Options).m_SoundOut.nSampleRate ∧
      (CKernel_CKernel cfg m_Options).m_SoundIn.nChunkSize =
        (CKernel_CKernel cfg m_Options).m_SoundOut.nChunkSize ∧
      (∀ x ∈ (Run In Out cfg d n (CKernel.entry i o)).state.calls,
        (∀ ms r, x = .SoundIn_AllocateReadQueue ms r → ms = cfg.QUEUE_SIZE_MSECS) ∧
        (∀ ms r, x = .SoundOut_AllocateQueue ms r → ms = cfg.QUEUE_SIZE_MSECS) ∧
        (∀ f ch, x = .SoundIn_SetReadFormat f ch → f = d.FORMAT ∧ ch = cfg.WRITE_CHANNELS) ∧
        (∀ f ch, x = .SoundOut_SetWriteFormat f ch → f = d.FORMAT ∧ ch = cfg.WRITE_CHANNELS)) ∧
      ((Run In Out cfg d n (CKernel.entry i o)).isHalted = false →
        Call.SoundIn_AllocateReadQueue cfg.QUEUE_SIZE_MSECS true ∈
          (Run In Out cfg d n (CKernel.entry i o)).state.calls ∧
        Call.SoundOut_AllocateQueue cfg.QUEUE_SIZE_MSECS true ∈
          (Run In Out cfg d n (CKernel.entry i o)).state.calls ∧
        Call.SoundIn_SetReadFormat d.FORMAT cfg.WRITE_CHANNELS ∈
          (Run In Out cfg d n (CKernel.entry i o)).state.calls ∧
        Call.SoundOut_SetWriteFormat d.FORMAT cfg.WRITE_CHANNELS ∈
          (Run In Out cfg d n (CKernel.entry i o)).state.calls) := by
  obtain ⟨a, b, c, e, ex, hcalls, hhalt, -, hex, -, -⟩ :=
    Run_outcome In Out cfg d n (CKernel.entry i o)
  rw [hcalls, hhalt]
  refine ⟨rfl, rfl, ?_, ?_⟩
  · intro x hx
    simp only [CKernel.entry, List.nil_append, List.mem_append] at hx
    rcases hx with hx | hx
    · rcases a <;> rcases b <;> rcases c <;> rcases e <;>
        simp [bootstrapRecord] at hx <;>
        casesm* _ ∨ _ <;> subst_vars <;> simp
    · have hl := hex x hx
      cases x <;> simp_all [Call.inLoop]
  · intro hnot
    simp only [Bool.not_eq_false', Bool.and_eq_true] at hnot
    obtain ⟨⟨⟨rfl, rfl⟩, rfl⟩, rfl⟩ := hnot
    simp [CKernel.entry, bootstrapRecord]

end BootstrapClaims

/-! ## Format selection and buffer size: claims C6, C7, C8, C9 -/

section FormatClaims

/-- C6: for each of the four selectors 0..3 the chain defines a format, and
its constants equal the reference table: the format named for the selector,
byte width 1, 2, 3, 4, full-scale factor `2^(bits-1) - 1` with bits 8, 16, 24,
24 (127, 32767, 8388607, 8388607), silence value `2^(bits-1) = 128` for the
unsigned format and 0 for the signed ones; and the byte width times 8 is at
least the bits of precision. -/
theorem C6_constants_match_reference (sel : Fin 4) :
    (∃ d, selectFormat (some ((sel : Nat) : Int)) = some d ∧
        d.FORMAT = specSoundFormat sel ∧
        d.TYPE_SIZE = (specFormat sel).byteWidth ∧
        d.FACTOR = (specFormat sel).fullScaleFactor ∧
        d.NULL_LEVEL = (specFormat sel).silenceValue ∧
        (specFormat sel).bits ≤ d.TYPE_SIZE * 8) ∧
      (selectFormat (some 0)).map (fun d => (d.TYPE_SIZE, d.FACTOR, d.NULL_LEVEL)) = some (1, 127, 128) ∧
      (selectFormat (some 1)).map (fun d => (d.TYPE_SIZE, d.FACTOR, d.NULL_LEVEL)) = some (2, 32767, 0) ∧
      (selectFormat (some 2)).map (fun d => (d.TYPE_SIZE, d.FACTOR, d.NULL_LEVEL)) = some (3, 8388607, 0) ∧
      (selectFormat (some 3)).map (fun d => (d.TYPE_SIZE, d.FACTOR, d.NULL_LEVEL)) = some (4, 8388607, 0) := by
  refine ⟨?_, by decide, by decide, by decide, by decide⟩
  fin_cases sel
  · exact ⟨_, rfl, rfl, rfl, by decide, by decide, by decide⟩
  · exact ⟨_, rfl, rfl, rfl, by decide, by decide, by decide⟩
  · exact ⟨_, rfl, rfl, rfl, by decide, by decide, by decide⟩
  · exact ⟨_, rfl, rfl, rfl, by decide, by decide, by decide⟩

/-- C7, the claim as stated fails: the selector `2 ^ 64`, which is outside
0..3, selects the unsigned 8-bit format; the selector `-(2 ^ 64 - 1)`, also
outside, selects the signed 16-bit format; and with no selector defined the
chain falls back to the unsigned 8-bit format. -/
theorem C7_counterexample :
    ¬ ((2 : Int) ^ 64 = 0 ∨ (2 : Int) ^ 64 = 1 ∨ (2 : Int) ^ 64 = 2 ∨ (2 : Int) ^ 64 = 3) ∧
      (selectFormat (some (2 ^ 64))).map (fun d => d.FORMAT) = some .SoundFormatUnsigned8 ∧
      (selectFormat (some (-(2 ^ 64 - 1)))).map (fun d => d.FORMAT) = some .SoundFormatSigned16 ∧
      (selectFormat none).map (fun d => d.FORMAT) = some .SoundFormatUnsigned8 := by
  refine ⟨by decide, by decide, by decide, by decide⟩

/-- C7 as amended: for every selector defined as an integer constant within
the 64-bit range of the preprocessor (`-2^63 ≤ v < 2^64`), the chain defines a
format exactly when the selector is 0, 1, 2 or 3, and defines nothing for any
other value (there is no default branch); in general it defines a format
exactly when the value the preprocessor gives the selector is one of 0..3. -/
theorem C7_selector_closed_set (v : Int) (hlo : -(2 ^ 63) ≤ v) (hhi : v < 2 ^ 64) :
    ((selectFormat (some v)).isSome = true ↔ (v = 0 ∨ v = 1 ∨ v = 2 ∨ v = 3)) ∧
      (selectFormat (some v) = none ↔ ¬ (v = 0 ∨ v = 1 ∨ v = 2 ∨ v = 3)) ∧
      ∀ W : Option Int, (selectFormat W).isSome = true ↔
        (preprocessorValue W = 0 ∨ preprocessorValue W = 1 ∨ preprocessorValue W = 2 ∨
          preprocessorValue W = 3) := by
  have hgen : ∀ W : Option Int, (selectFormat W).isSome = true ↔
      (preprocessorValue W = 0 ∨ preprocessorValue W = 1 ∨ preprocessorValue W = 2 ∨
        preprocessorValue W = 3) := by
    intro W
    unfold selectFormat
    by_cases h0 : preprocessorValue W = 0
    · simp [h0]
    · by_cases h1 : preprocessorValue W = 1
      · simp [h1]
      · by_cases h2 : preprocessorValue W = 2
        · simp [h2]
        · by_cases h3 : preprocessorValue W = 3
          · simp [h3]
          · simp [h0, h1, h2, h3]
  have hset : (preprocessorValue (some v) = 0 ∨ preprocessorValue (some v) = 1 ∨
      preprocessorValue (some v) = 2 ∨ preprocessorValue (some v) = 3) ↔
      (v = 0 ∨ v = 1 ∨ v = 2 ∨ v = 3) := by
    rw [preprocessorValue_eq_iff v hlo hhi 0 (by decide) (by decide),
      preprocessorValue_eq_iff v hlo hhi 1 (by decide) (by decide),
      preprocessorValue_eq_iff v hlo hhi 2 (by decide) (by decide),
      preprocessorValue_eq_iff v hlo hhi 3 (by decide) (by decide)]
  refine ⟨(hgen (some v)).trans hset, ?_, hgen⟩
  rw [← hset, ← hgen (some v)]
  cases selectFormat (some v) <;> simp

/-- C7 at a concrete input: the selector 4 defines nothing. -/
theorem C7_selector_closed_set_witness :
    -(2 ^ 63) ≤ (4 : Int) ∧ (4 : Int) < 2 ^ 64 ∧ selectFormat (some 4) = none :=
  ⟨by decide, by decide,
    (C7_selector_closed_set 4 (by decide) (by decide)).2.1.mpr (by decide)⟩

/-- C8, the claim as stated fails: with `WRITE_FORMAT` 1 the product
`TYPE_SIZE*WRITE_CHANNELS*1000` wraps in `size_t`.  On a 32-bit target with
2147484 channels the buffer has 704 bytes, and on a 64-bit target with
18446744073709552 channels it has 768 bytes; neither is `1000 * channels * 2`
nor a multiple of the frame size `channels * 2`. -/
theorem C8_counterexample :
    (selectFormat (some 1) = some defs16 ∧
      sizeofBuffer { stereo16 with WRITE_CHANNELS := 2147484 } defs16 = 704 ∧
      (704 : Nat) ≠ 1000 * (2147484 * defs16.TYPE_SIZE) ∧
      704 % (2147484 * defs16.TYPE_SIZE) ≠ 0) ∧
      (sizeofBuffer { stereo16 with WRITE_CHANNELS := 18446744073709552, SIZE_BITS := 64 }
          defs16 = 768 ∧
        (768 : Nat) ≠ 1000 * (18446744073709552 * defs16.TYPE_SIZE) ∧
        768 % (18446744073709552 * defs16.TYPE_SIZE) ≠ 0) := by
  refine ⟨⟨by decide, by decide, by decide, by decide⟩, by decide, by decide, by decide⟩

/-- C8 as amended: for every supported selector and every channel count of at
least 1 for which `1000 * channels * byteWidth` is within the range of `size_t`,
`sizeof Buffer` equals `1000 * channels * byteWidth`, is a whole multiple of the
frame size `channels * byteWidth` (exactly 1000 frames), and is the byte count
passed to every capture read of `Run`. -/
theorem C8_buffer_is_1000_frames {σI σO : Type} (In : CI2SSoundBaseDevice σI)
    (Out : CI2SSoundBaseDevice σO) (cfg : Config) (d : FormatDefs) (n : Nat) (i : σI) (o : σO)
    (hsel : selectFormat cfg.WRITE_FORMAT = some d) (hch : 1 ≤ cfg.WRITE_CHANNELS)
    (hfit : d.TYPE_SIZE * cfg.WRITE_CHANNELS * 1000 < 2 ^ cfg.SIZE_BITS) :
    sizeofBuffer cfg d = 1000 * (cfg.WRITE_CHANNELS * d.TYPE_SIZE) ∧
      sizeofBuffer cfg d % (cfg.WRITE_CHANNELS * d.TYPE_SIZE) = 0 ∧
      sizeofBuffer cfg d / (cfg.WRITE_CHANNELS * d.TYPE_SIZE) = 1000 ∧
      ∀ x ∈ (Run In Out cfg d n (CKernel.entry i o)).state.calls,
        ∀ sz r b, x = Call.SoundIn_Read sz r b → sz = sizeofBuffer cfg d := by
  have hsize := (selectFormat_TYPE_SIZE cfg.WRITE_FORMAT d hsel).1
  have hframe : 0 < cfg.WRITE_CHANNELS * d.TYPE_SIZE := Nat.mul_pos hch hsize
  have heq : sizeofBuffer cfg d = 1000 * (cfg.WRITE_CHANNELS * d.TYPE_SIZE) := by
    unfold sizeofBuffer
    rw [Nat.mod_eq_of_lt hfit]
    ring
  refine ⟨heq, ?_, ?_, ?_⟩
  · rw [heq]
    exact Nat.mul_mod_left _ _
  · rw [heq]
    exact Nat.mul_div_left 1000 hframe
  · obtain ⟨a, b, c, e, ex, hcalls, -, -, hex, -, -⟩ :=
      Run_outcome In Out cfg d n (CKernel.entry i o)
    rw [hcalls]
    intro x hx sz r buf hxe
    subst hxe
    simp only [CKernel.entry, List.nil_append, List.mem_append] at hx
    rcases hx with hx | hx
    · rcases a <;> rcases b <;> rcases c <;> rcases e <;> simp [bootstrapRecord] at hx
    · simpa [Call.inLoop] using hex _ hx

/-- C8 at a concrete input: stereo, 16 bits, 32-bit target, one read of 4
bytes. -/
theorem C8_buffer_is_1000_frames_witness :
    selectFormat stereo16.WRITE_FORMAT = some defs16 ∧ 1 ≤ stereo16.WRITE_CHANNELS ∧
      defs16.TYPE_SIZE * stereo16.WRITE_CHANNELS * 1000 < 2 ^ stereo16.SIZE_BITS ∧
      sizeofBuffer stereo16 defs16 = 1000 * (2 * 2) ∧
      sizeofBuffer stereo16 defs16 % (2 * 2) = 0 :=
  have h := C8_buffer_is_1000_frames scripted scripted stereo16 defs16 1
    (working [(4, [1, 2, 3, 4])] []) (working [] []) (by decide) (by decide) (by decide)
  ⟨by decide, by decide, by decide, h.1, h.2.1⟩

/-- C9, the claim as stated fails: with two channels the buffer is 4000 bytes
for selector 1 and 8000 bytes for selector 3, so its size is not the same for
all selectors, and for selector 1 it is below `1000 * 2 * 4`. -/
theorem C9_counterexample :
    sizeofBufferOf { stereo16 with WRITE_FORMAT := some 1 } = some 4000 ∧
      sizeofBufferOf { stereo16 with WRITE_FORMAT := some 3 } = some 8000 ∧
      sizeofBufferOf { stereo16 with WRITE_FORMAT := some 1 } ≠
        sizeofBufferOf { stereo16 with WRITE_FORMAT := some 3 } ∧
      ¬ ∃ size, sizeofBufferOf { stereo16 with WRITE_FORMAT := some 1 } = some size ∧
        1000 * stereo16.WRITE_CHANNELS * 4 ≤ size := by
  refine ⟨by decide, by decide, by decide, ?_⟩
  rintro ⟨size, hsize, hle⟩
  have h4000 : sizeofBufferOf { stereo16 with WRITE_FORMAT := some 1 } = some 4000 := by decide
  rw [h4000] at hsize
  simp only [Option.some.injEq] at hsize
  subst hsize
  exact absurd hle (by decide)

/-- C9 as amended: the buffer is sized for the byte width of the selected
format: for each selector 0..3 and every channel count for which
`1000 * channels * 4` is within the range of `size_t`, `sizeof Buffer` is
`1000 * channels * byteWidth` of that selector; it is at most
`1000 * channels * 4`, and two selectors give the same size only when they are
equal or the channel count is 0. -/
theorem C9_buffer_sized_for_selected_format (cfg : Config) (sel : Fin 4)
    (hfit : 4 * cfg.WRITE_CHANNELS * 1000 < 2 ^ cfg.SIZE_BITS) :
    sizeofBufferOf { cfg with WRITE_FORMAT := some ((sel : Nat) : Int) } =
        some (1000 * cfg.WRITE_CHANNELS * (specFormat sel).byteWidth) ∧
      1000 * cfg.WRITE_CHANNELS * (specFormat sel).byteWidth ≤ 1000 * cfg.WRITE_CHANNELS * 4 ∧
      ∀ other : Fin 4,
        sizeofBufferOf { cfg with WRITE_FORMAT := some ((sel : Nat) : Int) } =
            sizeofBufferOf { cfg with WRITE_FORMAT := some ((other : Nat) : Int) } ↔
          (sel = other ∨ cfg.WRITE_CHANNELS = 0) := by
  have hsize : ∀ s : Fin 4, sizeofBufferOf { cfg with WRITE_FORMAT := some ((s : Nat) : Int) } =
      some (1000 * cfg.WRITE_CHANNELS * (specFormat s).byteWidth) := by
    intro s
    have hsel : ∃ d, selectFormat (some ((s : Nat) : Int)) = some d ∧
        d.TYPE_SIZE = (specFormat s).byteWidth := by
      fin_cases s
      · exact ⟨_, rfl, rfl⟩
      · exact ⟨_, rfl, rfl⟩
      · exact ⟨_, rfl, rfl⟩
      · exact ⟨_, rfl, rfl⟩
    obtain ⟨d, hd, hw⟩ := hsel
    have hle : d.TYPE_SIZE ≤ 4 := (selectFormat_TYPE_SIZE _ d hd).2
    have hlt : d.TYPE_SIZE * cfg.WRITE_CHANNELS * 1000 < 2 ^ cfg.SIZE_BITS :=
      lt_of_le_of_lt
        (Nat.mul_le_mul_right 1000 (Nat.mul_le_mul_right cfg.WRITE_CHANNELS hle)) hfit
    simp only [sizeofBufferOf, hd, Option.map_some', sizeofBuffer, Nat.mod_eq_of_lt hlt, ← hw]
    congr 1
    ring
  refine ⟨hsize sel, ?_, ?_⟩
  · apply Nat.mul_le_mul_left
    fin_cases sel <;> simp [specFormat]
  · intro other
    rw [hsize sel, hsize other]
    fin_cases sel <;> fin_cases other <;> simp [specFormat] <;> omega

/-- C9 as amended, at a concrete input: stereo, selector 0, 32-bit target. -/
theorem C9_buffer_sized_for_selected_format_witness :
    4 * stereo16.WRITE_CHANNELS * 1000 < 2 ^ stereo16.SIZE_BITS ∧
      sizeofBufferOf { stereo16 with WRITE_FORMAT := some 0 } = some 2000 :=
  ⟨by decide, (C9_buffer_sized_for_selected_format stereo16 0 (by decide)).1⟩

end FormatClaims

end I2SInput
